import Mathlib

/-!
Shallow embedding of the flag-precedence engine of `f1_light_sync`
(`src/main.rs`).  Time is modelled as a `Nat` (seconds); `Instant::now()`
becomes an explicit `now` argument threaded to each operation that reads
the clock.  `Instant::duration_since` saturates to zero when the argument
is later than the receiver, which truncated `Nat` subtraction models
exactly.  Each state-mutating operation of `FlagManager` returns the new
state together with `Option String`: `some s` means `show` was invoked and
the UTF-8 payload `s` was sent on the output socket (`some ""` is the
explicit clear command), `none` means `show` was not invoked at all.
-/

namespace F1LightSync

inductive GlobalFlag
  | Vsc
  | Sc
  | Red
deriving DecidableEq, Repr, Fintype

inductive LocalFlag
  | Green
  | Yellow
  | Blue
deriving DecidableEq, Repr, Fintype

inductive Flag
  | Global (g : GlobalFlag)
  | Local (l : LocalFlag)
  | Penalty (index : Nat)
  | Finish
deriving DecidableEq, Repr

/-- `Flag::to_enum_str` (src/main.rs lines 107-123). -/
def Flag.to_enum_str : Flag → String
  | .Global g =>
    match g with
    | .Vsc => "5"
    | .Sc => "4"
    | .Red => "12"
  | .Local l =>
    match l with
    | .Green => "1"
    | .Yellow => "2"
    | .Blue => "8"
  | .Penalty index => "11," ++ toString index
  | .Finish => "16"

/-- `impl From<LocalFlag> for Flag` (src/main.rs lines 125-129). -/
def Flag.fromLocal (l : LocalFlag) : Flag := .Local l

/-- `impl From<GlobalFlag> for Flag` (src/main.rs lines 131-135). -/
def Flag.fromGlobal (g : GlobalFlag) : Flag := .Global g

/-- `PENALTY_SHOW_TIME: Duration = Duration::from_secs(2)` (src/main.rs line 11),
in seconds. -/
def PENALTY_SHOW_TIME : Nat := 2

/-- The state of `struct FlagManager` (src/main.rs lines 137-145), minus the
output socket, which carries no decision-relevant state.
`showing_penalty_since : Option Nat` is the `Option<Instant>` timestamp. -/
structure FlagManager where
  global_flag : Option GlobalFlag
  local_flag : Option LocalFlag
  race_finished : Bool
  showing_penalty_since : Option Nat
  driver_numbers : List Nat
deriving DecidableEq, Repr

/-- `fn show_based_on_local` (src/main.rs lines 147-158): the local
reconciliation rule.  Rust match guards that fail fall through to the
wildcard `None` arm, which the per-constructor `if` mirrors. -/
def show_based_on_local (flag : Option LocalFlag) (penalty : Bool)
    (finished : Bool) : Option (Option LocalFlag) :=
  match flag with
  | none => if !penalty && !finished then some none else none
  | some .Green => if !finished then some flag else none
  | some .Yellow => some flag
  | some .Blue => some flag

/-- The payload string `show` sends (src/main.rs lines 180-190):
`flag.map(Flag::to_enum_str).unwrap_or_default()`. -/
def showStr (flag : Option Flag) : String :=
  (flag.map Flag.to_enum_str).getD ""

/-- `FlagManager::new` (src/main.rs lines 161-170): every field `Default`. -/
def FlagManager.new : FlagManager :=
  { global_flag := none
    local_flag := none
    race_finished := false
    showing_penalty_since := none
    driver_numbers := [] }

/-- `FlagManager::reset` (src/main.rs lines 172-178).  The Rust body is pure
field assignment and never calls `show`; the emission slot is therefore
constantly `none`. -/
def FlagManager.reset (s : FlagManager) : FlagManager × Option String :=
  ({ s with
      global_flag := none
      local_flag := none
      race_finished := false
      showing_penalty_since := none
      driver_numbers := [] }, none)

/-- The roster event handler in `main` (src/main.rs lines 42-44):
`manager.driver_numbers = data.participants.map(|v| v.race_number)` — a
wholesale replacement with no `show` call. -/
def FlagManager.set_driver_numbers (s : FlagManager) (d : List Nat) :
    FlagManager × Option String :=
  ({ s with driver_numbers := d }, none)

/-- `FlagManager::finish` (src/main.rs lines 192-197). -/
def FlagManager.finish (s : FlagManager) : FlagManager × Option String :=
  let s := { s with race_finished := true }
  if s.global_flag = none then
    (s, some (showStr (some Flag.Finish)))
  else
    (s, none)

/-- `FlagManager::set_penalty` (src/main.rs lines 199-204).  `now` is the
value of `Instant::now()` at the call. -/
def FlagManager.set_penalty (s : FlagManager) (index : Nat) (now : Nat) :
    FlagManager × Option String :=
  let s := { s with showing_penalty_since := some now }
  if s.global_flag = none then
    (s, some (showStr (some (Flag.Penalty index))))
  else
    (s, none)

/-- `FlagManager::check_penalty` (src/main.rs lines 206-212).  The Rust code
computes `time.duration_since(Instant::now())`, i.e. the duration from `now`
back to the recorded (past) instant, which saturates at zero; truncated `Nat`
subtraction `time - now` models that saturation. -/
def FlagManager.check_penalty (s : FlagManager) (now : Nat) : FlagManager :=
  match s.showing_penalty_since with
  | some time =>
    if PENALTY_SHOW_TIME < time - now then
      { s with showing_penalty_since := none }
    else
      s
  | none => s

/-- `FlagManager::set_global_flag_value` (src/main.rs lines 214-233). -/
def FlagManager.set_global_flag_value (s : FlagManager)
    (flag : Option GlobalFlag) (now : Nat) : FlagManager × Option String :=
  let s := s.check_penalty now
  if s.global_flag = flag then
    (s, none)
  else
    let s := { s with global_flag := flag }
    if flag.isSome then
      (s, none)
    else
      match show_based_on_local s.local_flag s.showing_penalty_since.isSome
          s.race_finished with
      | some local_flag => (s, some (showStr (local_flag.map Flag.fromLocal)))
      | none => (s, none)

/-- `FlagManager::set_local_flag_value` (src/main.rs lines 235-254). -/
def FlagManager.set_local_flag_value (s : FlagManager)
    (flag : Option LocalFlag) (now : Nat) : FlagManager × Option String :=
  let s := s.check_penalty now
  if s.local_flag = flag then
    (s, none)
  else
    let s := { s with local_flag := flag }
    if s.global_flag.isSome then
      (s, none)
    else
      match show_based_on_local flag s.showing_penalty_since.isSome
          s.race_finished with
      | some local_flag => (s, some (showStr (local_flag.map Flag.fromLocal)))
      | none => (s, none)

/-- `FlagManager::set_global_flag` (src/main.rs lines 256-258). -/
def FlagManager.set_global_flag (s : FlagManager) (flag : GlobalFlag)
    (now : Nat) : FlagManager × Option String :=
  s.set_global_flag_value (some flag) now

/-- `FlagManager::reset_global_flag` (src/main.rs lines 260-262). -/
def FlagManager.reset_global_flag (s : FlagManager) (now : Nat) :
    FlagManager × Option String :=
  s.set_global_flag_value none now

/-- `FlagManager::set_local_flag` (src/main.rs lines 264-266). -/
def FlagManager.set_local_flag (s : FlagManager) (flag : LocalFlag)
    (now : Nat) : FlagManager × Option String :=
  s.set_local_flag_value (some flag) now

/-- `FlagManager::reset_local_flag` (src/main.rs lines 268-270). -/
def FlagManager.reset_local_flag (s : FlagManager) (now : Nat) :
    FlagManager × Option String :=
  s.set_local_flag_value none now

/-- Iterated `finish` calls: the list of emissions of `n` consecutive calls. -/
def finishTrace : FlagManager → Nat → List (Option String)
  | _, 0 => []
  | s, n + 1 => (s.finish).2 :: finishTrace (s.finish).1 n

/-- Concrete state: red global flag masking a yellow local flag. -/
def redGlobalYellowLocal : FlagManager :=
  { FlagManager.new with
      global_flag := some GlobalFlag.Red
      local_flag := some LocalFlag.Yellow }

/-! ## Helper lemmas -/

theorem check_penalty_global_flag (s : FlagManager) (now : Nat) :
    (s.check_penalty now).global_flag = s.global_flag := by
  unfold FlagManager.check_penalty
  cases s.showing_penalty_since <;> simp only
  split <;> rfl

theorem check_penalty_local_flag (s : FlagManager) (now : Nat) :
    (s.check_penalty now).local_flag = s.local_flag := by
  unfold FlagManager.check_penalty
  cases s.showing_penalty_since <;> simp only
  split <;> rfl

theorem check_penalty_race_finished (s : FlagManager) (now : Nat) :
    (s.check_penalty now).race_finished = s.race_finished := by
  unfold FlagManager.check_penalty
  cases s.showing_penalty_since <;> simp only
  split <;> rfl

theorem check_penalty_driver_numbers (s : FlagManager) (now : Nat) :
    (s.check_penalty now).driver_numbers = s.driver_numbers := by
  unfold FlagManager.check_penalty
  cases s.showing_penalty_since <;> simp only
  split <;> rfl

theorem check_penalty_of_le (s : FlagManager) (time now : Nat)
    (h1 : s.showing_penalty_since = some time) (h2 : time ≤ now) :
    s.check_penalty now = s := by
  unfold FlagManager.check_penalty
  rw [h1]
  simp only
  rw [if_neg]
  simp only [PENALTY_SHOW_TIME]
  omega

theorem check_penalty_of_none (s : FlagManager) (now : Nat)
    (hp : s.showing_penalty_since = none) : s.check_penalty now = s := by
  unfold FlagManager.check_penalty
  rw [hp]

theorem set_global_flag_value_race_finished (s : FlagManager)
    (f : Option GlobalFlag) (now : Nat) :
    (s.set_global_flag_value f now).1.race_finished = s.race_finished := by
  have hr := check_penalty_race_finished s now
  unfold FlagManager.set_global_flag_value
  dsimp only
  split
  · exact hr
  · split
    · exact hr
    · split <;> exact hr

theorem set_local_flag_value_race_finished (s : FlagManager)
    (l : Option LocalFlag) (now : Nat) :
    (s.set_local_flag_value l now).1.race_finished = s.race_finished := by
  have hr := check_penalty_race_finished s now
  unfold FlagManager.set_local_flag_value
  dsimp only
  split
  · exact hr
  · split
    · exact hr
    · split <;> exact hr

theorem check_penalty_roster (s : FlagManager) (d : List Nat) (now : Nat) :
    ({ s with driver_numbers := d } : FlagManager).check_penalty now =
      { s.check_penalty now with driver_numbers := d } := by
  rcases hsp : s.showing_penalty_since with _ | time
  · simp [FlagManager.check_penalty, hsp]
  · simp only [FlagManager.check_penalty, hsp]
    split <;> simp [hsp]

theorem set_global_flag_value_roster (s : FlagManager) (d : List Nat)
    (f : Option GlobalFlag) (now : Nat) :
    ({ s with driver_numbers := d } : FlagManager).set_global_flag_value
        f now =
      ({ (s.set_global_flag_value f now).1 with driver_numbers := d },
        (s.set_global_flag_value f now).2) := by
  unfold FlagManager.set_global_flag_value
  rw [check_penalty_roster]
  dsimp only
  split
  · rfl
  · split
    · rfl
    · split <;> rfl

theorem set_local_flag_value_roster (s : FlagManager) (d : List Nat)
    (l : Option LocalFlag) (now : Nat) :
    ({ s with driver_numbers := d } : FlagManager).set_local_flag_value
        l now =
      ({ (s.set_local_flag_value l now).1 with driver_numbers := d },
        (s.set_local_flag_value l now).2) := by
  unfold FlagManager.set_local_flag_value
  rw [check_penalty_roster]
  dsimp only
  split
  · rfl
  · split
    · rfl
    · split <;> rfl

theorem set_penalty_roster (s : FlagManager) (d : List Nat) (i now : Nat) :
    ({ s with driver_numbers := d } : FlagManager).set_penalty i now =
      ({ (s.set_penalty i now).1 with driver_numbers := d },
        (s.set_penalty i now).2) := by
  unfold FlagManager.set_penalty
  dsimp only
  split <;> rfl

theorem finish_roster (s : FlagManager) (d : List Nat) :
    ({ s with driver_numbers := d } : FlagManager).finish =
      ({ (s.finish).1 with driver_numbers := d }, (s.finish).2) := by
  unfold FlagManager.finish
  dsimp only
  split <;> rfl

theorem finish_of_no_global (s : FlagManager) (h : s.global_flag = none) :
    s.finish = ({ s with race_finished := true }, some "16") := by
  simp [FlagManager.finish, h, showStr, Flag.to_enum_str]

theorem finishTrace_replicate (n : Nat) :
    ∀ s : FlagManager, s.global_flag = none →
      finishTrace s n = List.replicate n (some "16") := by
  induction n with
  | zero => intro s h; rfl
  | succ m ih =>
    intro s h
    show (s.finish).2 :: finishTrace (s.finish).1 m = _
    rw [finish_of_no_global s h, List.replicate_succ]
    exact congrArg _ (ih _ h)

/-! ## Claims -/

/-- Claim C3: the local reconciliation rule is exactly the four-row table:
(local=None, penalty=false, finished=false) → emit the explicit clear value;
(local=Green, finished=false) → emit Green; (local=Yellow or Blue, any
penalty, any finish state) → emit that flag; every other combination → emit
nothing. -/
theorem show_based_on_local_is_the_table :
    ∀ (flag : Option LocalFlag) (penalty finished : Bool),
      show_based_on_local flag penalty finished =
        if flag = none ∧ penalty = false ∧ finished = false then
          some none
        else if flag = some LocalFlag.Green ∧ finished = false then
          some flag
        else if flag = some LocalFlag.Yellow ∨ flag = some LocalFlag.Blue then
          some flag
        else
          none := by
  decide

/-- Claim C1 (code evaluation): setting a global flag NEVER emits anything,
although the state change is recorded — `set_global_flag_value` returns right
after the `global_flag` assignment whenever the new flag is `Some`, before
any call to `show`.  In particular two consecutive `setGlobalFlag(X)` calls
with the same `X` emit zero values, not one. -/
theorem set_global_flag_never_emits (s : FlagManager) (g : GlobalFlag)
    (now : Nat) :
    (s.set_global_flag g now).2 = none ∧
      (s.set_global_flag g now).1.global_flag = some g := by
  unfold FlagManager.set_global_flag FlagManager.set_global_flag_value
  by_cases h : (s.check_penalty now).global_flag = some g
  · simp [h]
  · simp [h]

/-- Claim C2 (code evaluation): the penalty notice never expires.
`check_penalty` compares `time.duration_since(now)` — the saturating
duration from `now` back to the past instant `time`, which is zero whenever
`time ≤ now` — against the 2-second display duration, so the clearing branch
is unreachable on a monotonic clock: a penalty raised at `time` is still
recorded at every later `now`, however far past the 2-second window. -/
theorem check_penalty_never_expires (s : FlagManager) (time now : Nat)
    (h1 : s.showing_penalty_since = some time) (h2 : time ≤ now) :
    (s.check_penalty now).showing_penalty_since = some time := by
  rw [check_penalty_of_le s time now h1 h2, h1]

/-- Witness for `check_penalty_never_expires`: a penalty raised at t = 0 is
still active when checked at t = 5, three seconds past the display window. -/
theorem check_penalty_never_expires_witness :
    (({ FlagManager.new with showing_penalty_since := some 0 } :
        FlagManager).check_penalty 5).showing_penalty_since = some 0 :=
  check_penalty_never_expires
    { FlagManager.new with showing_penalty_since := some 0 } 0 5 rfl
    (by decide)

/-- Claim C4: while a global flag is active, neither a local-flag change
(`setLocalFlag` / `clearLocalFlag`, i.e. `set_local_flag_value`) nor
`setPenalty` produces an emission, yet the state change is recorded —
`local_flag` equals the requested value afterwards, `showing_penalty_since`
gets the fresh timestamp — and the global flag itself is untouched, so the
mask persists across any such sequence of calls. -/
theorem global_flag_masks_local_and_penalty (s : FlagManager)
    (f : Option LocalFlag) (i now : Nat) (h : s.global_flag ≠ none) :
    (s.set_local_flag_value f now).2 = none ∧
      (s.set_local_flag_value f now).1.local_flag = f ∧
      (s.set_local_flag_value f now).1.global_flag = s.global_flag ∧
      (s.set_penalty i now).2 = none ∧
      (s.set_penalty i now).1.showing_penalty_since = some now ∧
      (s.set_penalty i now).1.global_flag = s.global_flag := by
  have hg := check_penalty_global_flag s now
  have hpen : s.set_penalty i now =
      ({ s with showing_penalty_since := some now }, none) := by
    simp [FlagManager.set_penalty, h]
  have hloc : (s.set_local_flag_value f now).2 = none ∧
      (s.set_local_flag_value f now).1.local_flag = f ∧
      (s.set_local_flag_value f now).1.global_flag = s.global_flag := by
    by_cases hc : (s.check_penalty now).local_flag = f
    · simp [FlagManager.set_local_flag_value, hc, hg]
    · simp [FlagManager.set_local_flag_value, hc, hg,
        Option.isSome_iff_ne_none, h]
  exact ⟨hloc.1, hloc.2.1, hloc.2.2, by rw [hpen], by rw [hpen],
    by rw [hpen]⟩

/-- Witness for `global_flag_masks_local_and_penalty`: with Sc active,
`setLocalFlag(Yellow)` and `setPenalty(7)` emit nothing but record their
state changes. -/
theorem global_flag_masks_local_and_penalty_witness :
    (({ FlagManager.new with global_flag := some GlobalFlag.Sc } :
        FlagManager).set_local_flag_value (some LocalFlag.Yellow) 3).2 =
        none ∧
      (({ FlagManager.new with global_flag := some GlobalFlag.Sc } :
          FlagManager).set_local_flag_value
          (some LocalFlag.Yellow) 3).1.local_flag = some LocalFlag.Yellow ∧
      (({ FlagManager.new with global_flag := some GlobalFlag.Sc } :
          FlagManager).set_local_flag_value
          (some LocalFlag.Yellow) 3).1.global_flag = some GlobalFlag.Sc ∧
      (({ FlagManager.new with global_flag := some GlobalFlag.Sc } :
          FlagManager).set_penalty 7 3).2 = none ∧
      (({ FlagManager.new with global_flag := some GlobalFlag.Sc } :
          FlagManager).set_penalty 7 3).1.showing_penalty_since = some 3 ∧
      (({ FlagManager.new with global_flag := some GlobalFlag.Sc } :
          FlagManager).set_penalty 7 3).1.global_flag =
        some GlobalFlag.Sc :=
  global_flag_masks_local_and_penalty
    { FlagManager.new with global_flag := some GlobalFlag.Sc }
    (some LocalFlag.Yellow) 7 3 (by decide)

/-- Claim C5: `clearGlobalFlag()` on an active global flag falls through to
the reconciliation rule with the current local flag, penalty and finish
state: with local = Yellow and global = Red it emits Yellow's encoding "2";
with no local flag, no penalty, not finished (and any active global flag) it
emits the empty clear value "". -/
theorem clear_global_falls_through_to_reconciliation (s : FlagManager)
    (now : Nat) :
    (s.global_flag = some GlobalFlag.Red →
      s.local_flag = some LocalFlag.Yellow →
      (s.reset_global_flag now).2 = some "2") ∧
      (s.global_flag ≠ none → s.local_flag = none →
        s.showing_penalty_since = none → s.race_finished = false →
        (s.reset_global_flag now).2 = some "") := by
  constructor
  · intro hg hl
    simp [FlagManager.reset_global_flag, FlagManager.set_global_flag_value,
      check_penalty_global_flag, check_penalty_local_flag, hg, hl,
      show_based_on_local, showStr, Flag.fromLocal, Flag.to_enum_str]
  · intro hg hl hp hf
    rw [FlagManager.reset_global_flag, FlagManager.set_global_flag_value,
      check_penalty_of_none s now hp]
    simp [hg, hl, hp, hf, show_based_on_local, showStr]

/-- Witness for `clear_global_falls_through_to_reconciliation`: the two
concrete scenarios of the claim, at concrete states. -/
theorem clear_global_falls_through_witness :
    (redGlobalYellowLocal.reset_global_flag 0).2 = some "2" ∧
      (({ FlagManager.new with global_flag := some GlobalFlag.Vsc } :
          FlagManager).reset_global_flag 0).2 = some "" :=
  ⟨(clear_global_falls_through_to_reconciliation redGlobalYellowLocal 0).1
      rfl rfl,
    (clear_global_falls_through_to_reconciliation
      { FlagManager.new with global_flag := some GlobalFlag.Vsc } 0).2
      (by decide) rfl rfl rfl⟩

/-- Claim C6 counterexample: with local = Green, not finished, no global
flag, `setPenalty(3)` at t = 0 emits "11,3"; the penalty is still recorded
when `setLocalFlag(Yellow)` runs at t = 1 (inside the 2-second window), and
that call emits "2" — NOT nothing as the claim states — because the
Yellow row of the reconciliation table emits regardless of the penalty. -/
theorem penalty_then_yellow_emits_counterexample :
    (({ FlagManager.new with local_flag := some LocalFlag.Green } :
        FlagManager).set_penalty 3 0).2 = some "11,3" ∧
      ((({ FlagManager.new with local_flag := some LocalFlag.Green } :
          FlagManager).set_penalty 3 0).1.set_local_flag
          LocalFlag.Yellow 1).1.showing_penalty_since = some 0 ∧
      ((({ FlagManager.new with local_flag := some LocalFlag.Green } :
          FlagManager).set_penalty 3 0).1.set_local_flag
          LocalFlag.Yellow 1).2 = some "2" ∧
      ¬((({ FlagManager.new with local_flag := some LocalFlag.Green } :
          FlagManager).set_penalty 3 0).1.set_local_flag
          LocalFlag.Yellow 1).2 = none := by
  refine ⟨rfl, rfl, rfl, ?_⟩
  intro hc
  exact Option.noConfusion hc

/-- Claim C6 as amended: with local flag = Green, race not finished, and no
global flag, `setPenalty(3)` emits the compound value "11,3", and a
subsequent `setLocalFlag(Yellow)` while that penalty is still active emits
Yellow's encoding "2" (the Yellow row of the reconciliation rule emits
regardless of the penalty), leaving the penalty timestamp in place. -/
theorem penalty_overlay_amended (s : FlagManager) (now later : Nat)
    (hl : s.local_flag = some LocalFlag.Green) (_hf : s.race_finished = false)
    (hg : s.global_flag = none) (hmono : now ≤ later)
    (_hwin : later ≤ now + PENALTY_SHOW_TIME) :
    (s.set_penalty 3 now).2 = some "11,3" ∧
      ((s.set_penalty 3 now).1.set_local_flag LocalFlag.Yellow later).2 =
        some "2" ∧
      ((s.set_penalty 3 now).1.set_local_flag
        LocalFlag.Yellow later).1.showing_penalty_since = some now := by
  have h1 : s.set_penalty 3 now =
      ({ s with showing_penalty_since := some now }, some "11,3") := by
    simp [FlagManager.set_penalty, hg, showStr, Flag.to_enum_str]
    rfl
  have hcp : ({ s with showing_penalty_since := some now } :
      FlagManager).check_penalty later =
      { s with showing_penalty_since := some now } :=
    check_penalty_of_le _ now later rfl hmono
  have h2 : ({ s with showing_penalty_since := some now } :
      FlagManager).set_local_flag LocalFlag.Yellow later =
      ({ { s with showing_penalty_since := some now } with
          local_flag := some LocalFlag.Yellow }, some "2") := by
    rw [FlagManager.set_local_flag, FlagManager.set_local_flag_value, hcp]
    simp [hl, hg, show_based_on_local, showStr, Flag.fromLocal,
      Flag.to_enum_str]
  rw [h1]
  exact ⟨rfl, by rw [h2], by rw [h2]⟩

/-- Witness for `penalty_overlay_amended`: the concrete run of the claim,
penalty at t = 0, yellow local flag at t = 1. -/
theorem penalty_overlay_amended_witness :
    (({ FlagManager.new with local_flag := some LocalFlag.Green } :
        FlagManager).set_penalty 3 0).2 = some "11,3" ∧
      ((({ FlagManager.new with local_flag := some LocalFlag.Green } :
          FlagManager).set_penalty 3 0).1.set_local_flag
          LocalFlag.Yellow 1).2 = some "2" ∧
      ((({ FlagManager.new with local_flag := some LocalFlag.Green } :
          FlagManager).set_penalty 3 0).1.set_local_flag
          LocalFlag.Yellow 1).1.showing_penalty_since = some 0 :=
  penalty_overlay_amended
    { FlagManager.new with local_flag := some LocalFlag.Green } 0 1 rfl rfl
    rfl (by decide) (by decide)

/-- Claim C7: `finish()` sets `race_finished = true` and emits the finish
value "16" exactly when no global flag is active; `race_finished` is
preserved by every other operation — global/local setters, `setPenalty`,
roster replacement — and only `reset()` returns it to `false`. -/
theorem finish_sets_and_persists (s : FlagManager) (f : Option GlobalFlag)
    (l : Option LocalFlag) (i now : Nat) (d : List Nat) :
    (s.finish).1.race_finished = true ∧
      (s.finish).2 = (if s.global_flag = none then some "16" else none) ∧
      (s.set_global_flag_value f now).1.race_finished = s.race_finished ∧
      (s.set_local_flag_value l now).1.race_finished = s.race_finished ∧
      (s.set_penalty i now).1.race_finished = s.race_finished ∧
      (s.set_driver_numbers d).1.race_finished = s.race_finished ∧
      (s.reset).1.race_finished = false := by
  refine ⟨?_, ?_, set_global_flag_value_race_finished s f now,
    set_local_flag_value_race_finished s l now, ?_, rfl, rfl⟩
  · unfold FlagManager.finish
    dsimp only
    split <;> rfl
  · by_cases h : s.global_flag = none
    · simp [FlagManager.finish, h, showStr, Flag.to_enum_str]
    · simp [FlagManager.finish, h]
  · unfold FlagManager.set_penalty
    dsimp only
    split <;> rfl

/-- Claim C8: `reset()` emits nothing and returns every field — global flag,
local flag, finish state, penalty timestamp, roster — to the initial state
`FlagManager.new`, after any prior sequence of operations; at the post-reset
candidate (local = None, penalty = false, finished = false) the
reconciliation rule yields the clear row `some none`, whose payload is the
empty clear value "" (the actual `clearLocalFlag()` call short-circuits on
equality, which the claim sets aside). -/
theorem reset_clears_everything (s : FlagManager) :
    (s.reset).2 = none ∧
      (s.reset).1 = FlagManager.new ∧
      show_based_on_local (s.reset).1.local_flag
          (s.reset).1.showing_penalty_since.isSome
          (s.reset).1.race_finished = some none ∧
      showStr ((none : Option LocalFlag).map Flag.fromLocal) = "" :=
  ⟨rfl, rfl, rfl, rfl⟩

/-- Claim C9: emitted values never depend on the driver roster: for any two
states differing only in `driver_numbers`, every operation produces the same
emission (or none), and a roster event itself replaces `driver_numbers`
wholesale while emitting nothing. -/
theorem emissions_independent_of_roster (s : FlagManager) (d d2 : List Nat)
    (f : Option GlobalFlag) (l : Option LocalFlag) (i now : Nat) :
    (({ s with driver_numbers := d } : FlagManager).set_global_flag_value
        f now).2 = (s.set_global_flag_value f now).2 ∧
      (({ s with driver_numbers := d } : FlagManager).set_local_flag_value
        l now).2 = (s.set_local_flag_value l now).2 ∧
      (({ s with driver_numbers := d } : FlagManager).set_penalty i now).2 =
        (s.set_penalty i now).2 ∧
      (({ s with driver_numbers := d } : FlagManager).finish).2 =
        (s.finish).2 ∧
      (({ s with driver_numbers := d } : FlagManager).reset).2 =
        (s.reset).2 ∧
      (({ s with driver_numbers := d } :
          FlagManager).set_driver_numbers d2).2 =
        (s.set_driver_numbers d2).2 ∧
      s.set_driver_numbers d2 = ({ s with driver_numbers := d2 }, none) := by
  refine ⟨?_, ?_, ?_, ?_, rfl, rfl, rfl⟩
  · rw [set_global_flag_value_roster]
  · rw [set_local_flag_value_roster]
  · rw [set_penalty_roster]
  · rw [finish_roster]

/-- Claim C10: `finish()` has no equality short-circuit: whenever no global
flag is active it emits "16", including when `race_finished` is already
`true`, and `n` consecutive `finish()` calls produce `n` emissions of
"16". -/
theorem finish_no_short_circuit (s : FlagManager) (n : Nat)
    (h : s.global_flag = none) :
    (s.finish).2 = some "16" ∧
      finishTrace s n = List.replicate n (some "16") :=
  ⟨by rw [finish_of_no_global s h], finishTrace_replicate n s h⟩

/-- Witness for `finish_no_short_circuit`: with `race_finished` already true
and no global flag, three consecutive `finish()` calls emit "16" three
times. -/
theorem finish_no_short_circuit_witness :
    (({ FlagManager.new with race_finished := true } :
        FlagManager).finish).2 = some "16" ∧
      finishTrace { FlagManager.new with race_finished := true } 3 =
        List.replicate 3 (some "16") :=
  finish_no_short_circuit { FlagManager.new with race_finished := true } 3
    rfl

end F1LightSync
